import Mathlib

/-!
Shallow embedding of the data-cleaning pipeline in `src/main.py` (and its
verbatim copy inside `blackbox_cleaner.py`).  Python strings are modelled as
`String`/`List Char`, nullable cells as `Option`, pandas DataFrames as lists of
structured rows, and a Python exception escaping a per-value transform as
`Option.none` of the surrounding computation.  All definitions are executable
and structurally recursive so that concrete runs reduce inside the kernel.
-/

/-! ### Python string primitives -/

/-- The characters removed by Python `str.strip()` (ASCII whitespace). -/
def pyIsSpaceChar (c : Char) : Bool :=
  c = ' ' || c = '\t' || c = '\n' || c = '\r' || c = '\x0b' || c = '\x0c'

/-- Python `str.strip()` on a character list. -/
def pyStripL (cs : List Char) : List Char :=
  ((cs.dropWhile pyIsSpaceChar).reverse.dropWhile pyIsSpaceChar).reverse

/-- Python `str.isupper()` for ASCII data: at least one cased (alphabetic)
character and no lowercase character. -/
def pyIsUpper (s : String) : Bool :=
  s.data.any (fun c => c.isAlpha) && s.data.all (fun c => !c.isLower)

/-- Python `str.upper()` for ASCII data. -/
def pyUpper (s : String) : String :=
  String.mk (s.data.map Char.toUpper)

/-- `correct_to_uppercase` (main.py line 33): upper-case the string unless it
already is upper-case. -/
def correct_to_uppercase (s : String) : String :=
  if pyIsUpper s then s else pyUpper s

/-- Index of the first occurrence of `c`, mirroring Python `str.find` before
its `-1` encoding. -/
def findAt (c : Char) : List Char → Option Nat
  | [] => none
  | x :: xs => if x = c then some 0 else (findAt c xs).map (· + 1)

/-- Python `str.find`: first index of `c`, or `-1` when absent. -/
def pyFindChar (cs : List Char) (c : Char) : Int :=
  match findAt c cs with
  | some i => (i : Int)
  | none => -1

/-- Python slice `s[i:]` for an arbitrary (possibly negative) index. -/
def pySliceFrom (cs : List Char) (i : Int) : List Char :=
  if 0 ≤ i then cs.drop i.toNat else cs.drop ((cs.length : Int) + i).toNat

/-! ### Maskers -/

/-- `hide_email` (main.py lines 36-39) on a character list:
`email[0] + "*" * (at_index - 1) + email[at_index:]` where
`at_index = email.find("@")`.  Python `"*" * n` is empty for `n ≤ 0`, and
`email[0]` raises `IndexError` on the empty string, modelled by `none`. -/
def hideEmailL (cs : List Char) : Option (List Char) :=
  match cs with
  | [] => none
  | c0 :: _ =>
    let atIdx := pyFindChar cs '@'
    some ([c0] ++ List.replicate (atIdx - 1).toNat '*' ++ pySliceFrom cs atIdx)

/-- `hide_email` on Python strings. -/
def hide_email (s : String) : Option String :=
  (hideEmailL s.data).map String.mk

/-- `hide_national_id` (main.py lines 41-43): `id[:3] + "X" * len(id[3:])`.
The `str(id)` coercion is a no-op here since the loader already forces the
`national_id` column to text. -/
def hide_national_id (s : String) : String :=
  String.mk (s.data.take 3 ++ List.replicate (s.data.drop 3).length 'X')

/-! ### Date normalizer

`clean_dates` (main.py lines 19-31) calls `datetime.strptime` with the formats
`"%d-%m-%Y-%H-%M"` and `"%Y/%m/%d %H:%M"` in that order and reformats a
successful parse with `"%d/%m/%Y %H:%M:%S"`.  CPython compiles each format to
a regular expression (`_strptime`): `%d` is `3[01]|[12]\d|0[1-9]|[1-9]`,
`%m` is `1[0-2]|0[1-9]|[1-9]`, `%H` is `2[0-3]|[0-1]\d|\d`,
`%M` is `[0-5]\d|\d`, `%Y` is exactly four digits, a literal is itself and a
whitespace in the format matches one or more whitespace characters.  The
engine backtracks in alternation order, the whole input must be consumed, and
the `datetime(...)` constructor then validates the calendar date.  Each token
below returns its candidate matches in backtracking priority order. -/

structure PyDateTime where
  year : Nat
  month : Nat
  day : Nat
  hour : Nat
  minute : Nat
  deriving DecidableEq

/-- Numeric value of a decimal digit character. -/
def decDigitVal (c : Char) : Nat := c.toNat - 48

/-- Candidates of a one-or-two-digit numeric token: the greedy two-digit
reading first (when both characters are digits and the two-digit value is
admitted), then the one-digit reading. -/
def num2Cands (twoOK oneOK : Nat → Bool) : List Char → List (Nat × List Char)
  | c1 :: c2 :: rest =>
    (if c1.isDigit && c2.isDigit && twoOK (decDigitVal c1 * 10 + decDigitVal c2) then
      [(decDigitVal c1 * 10 + decDigitVal c2, rest)]
    else []) ++
    (if c1.isDigit && oneOK (decDigitVal c1) then [(decDigitVal c1, c2 :: rest)] else [])
  | [c1] => if c1.isDigit && oneOK (decDigitVal c1) then [(decDigitVal c1, [])] else []
  | [] => []

/-- `%d`: two digits `01`-`31`, or one digit `1`-`9`. -/
def dayCands : List Char → List (Nat × List Char) :=
  num2Cands (fun v => decide (1 ≤ v ∧ v ≤ 31)) (fun v => decide (1 ≤ v ∧ v ≤ 9))

/-- `%m`: two digits `01`-`12`, or one digit `1`-`9`. -/
def monthCands : List Char → List (Nat × List Char) :=
  num2Cands (fun v => decide (1 ≤ v ∧ v ≤ 12)) (fun v => decide (1 ≤ v ∧ v ≤ 9))

/-- `%H`: two digits `00`-`23`, or one digit `0`-`9`. -/
def hourCands : List Char → List (Nat × List Char) :=
  num2Cands (fun v => decide (v ≤ 23)) (fun v => decide (v ≤ 9))

/-- `%M`: two digits `00`-`59`, or one digit `0`-`9`. -/
def minuteCands : List Char → List (Nat × List Char) :=
  num2Cands (fun v => decide (v ≤ 59)) (fun v => decide (v ≤ 9))

/-- `%Y`: exactly four digits. -/
def yearCands : List Char → List (Nat × List Char)
  | c1 :: c2 :: c3 :: c4 :: rest =>
    if c1.isDigit && c2.isDigit && c3.isDigit && c4.isDigit then
      [(((decDigitVal c1 * 10 + decDigitVal c2) * 10 + decDigitVal c3) * 10 + decDigitVal c4,
        rest)]
    else []
  | _ => []

/-- A literal character of the format. -/
def litCand (c : Char) : List Char → List (Unit × List Char)
  | x :: rest => if x = c then [((), rest)] else []
  | [] => []

/-- A whitespace in the format (`\s+`): one or more whitespace characters,
longest match first. -/
def wsCands (cs : List Char) : List (Unit × List Char) :=
  let n := (cs.takeWhile pyIsSpaceChar).length
  (List.range n).map (fun i => ((), cs.drop (n - i)))

/-- Sequencing of token candidate lists, preserving backtracking order. -/
def candBind {α β : Type} (xs : List (α × List Char))
    (f : α → List Char → List (β × List Char)) : List (β × List Char) :=
  xs.flatMap (fun p => f p.1 p.2)

/-- All full-pattern matches of `"%d-%m-%Y-%H-%M"`, in backtracking order. -/
def fmt1Cands (cs : List Char) : List (PyDateTime × List Char) :=
  candBind (dayCands cs) fun d cs =>
  candBind (litCand '-' cs) fun _ cs =>
  candBind (monthCands cs) fun m cs =>
  candBind (litCand '-' cs) fun _ cs =>
  candBind (yearCands cs) fun y cs =>
  candBind (litCand '-' cs) fun _ cs =>
  candBind (hourCands cs) fun h cs =>
  candBind (litCand '-' cs) fun _ cs =>
  candBind (minuteCands cs) fun mi cs =>
  [(⟨y, m, d, h, mi⟩, cs)]

/-- All full-pattern matches of `"%Y/%m/%d %H:%M"`, in backtracking order. -/
def fmt2Cands (cs : List Char) : List (PyDateTime × List Char) :=
  candBind (yearCands cs) fun y cs =>
  candBind (litCand '/' cs) fun _ cs =>
  candBind (monthCands cs) fun m cs =>
  candBind (litCand '/' cs) fun _ cs =>
  candBind (dayCands cs) fun d cs =>
  candBind (wsCands cs) fun _ cs =>
  candBind (hourCands cs) fun h cs =>
  candBind (litCand ':' cs) fun _ cs =>
  candBind (minuteCands cs) fun mi cs =>
  [(⟨y, m, d, h, mi⟩, cs)]

/-- Length of a month, with the Gregorian leap rule. -/
def daysInMonth (year month : Nat) : Nat :=
  match month with
  | 1 => 31
  | 2 => if year % 4 = 0 && (year % 100 ≠ 0 || year % 400 = 0) then 29 else 28
  | 3 => 31
  | 4 => 30
  | 5 => 31
  | 6 => 30
  | 7 => 31
  | 8 => 31
  | 9 => 30
  | 10 => 31
  | 11 => 30
  | 12 => 31
  | _ => 0

/-- The validation done by the `datetime(year, month, day, hour, minute)`
constructor (`MINYEAR = 1`, `MAXYEAR = 9999`). -/
def validDate (dt : PyDateTime) : Bool :=
  decide (1 ≤ dt.year) && decide (dt.year ≤ 9999) &&
  decide (1 ≤ dt.month) && decide (dt.month ≤ 12) &&
  decide (1 ≤ dt.day) && decide (dt.day ≤ daysInMonth dt.year dt.month) &&
  decide (dt.hour ≤ 23) && decide (dt.minute ≤ 59)

/-- `datetime.strptime(value, "%d-%m-%Y-%H-%M")` as an `Option`: the regex
engine yields its first match; the whole input must be consumed and the
calendar date must be constructible, otherwise `ValueError` (here `none`). -/
def strptimeFmt1 (cs : List Char) : Option PyDateTime :=
  match fmt1Cands cs with
  | [] => none
  | (dt, rest) :: _ => if rest.isEmpty && validDate dt then some dt else none

/-- `datetime.strptime(value, "%Y/%m/%d %H:%M")` as an `Option`. -/
def strptimeFmt2 (cs : List Char) : Option PyDateTime :=
  match fmt2Cands cs with
  | [] => none
  | (dt, rest) :: _ => if rest.isEmpty && validDate dt then some dt else none

/-- Decimal digit character for a value below ten. -/
def decDigitChar (n : Nat) : Char := Char.ofNat (48 + n)

/-- `parsed.strftime("%d/%m/%Y %H:%M:%S")`: zero-padded two-digit day, month,
hour and minute, four-digit year, and seconds fixed at `00` because
`strptime` leaves the seconds at their default `0`. -/
def formatOutL (dt : PyDateTime) : List Char :=
  [decDigitChar (dt.day / 10), decDigitChar (dt.day % 10), '/',
   decDigitChar (dt.month / 10), decDigitChar (dt.month % 10), '/',
   decDigitChar (dt.year / 1000), decDigitChar (dt.year / 100 % 10),
   decDigitChar (dt.year / 10 % 10), decDigitChar (dt.year % 10), ' ',
   decDigitChar (dt.hour / 10), decDigitChar (dt.hour % 10), ':',
   decDigitChar (dt.minute / 10), decDigitChar (dt.minute % 10), ':', '0', '0']

/-- `clean_dates` (main.py lines 19-31): propagate null, strip, try the two
source formats in order, reformat the first success, otherwise null. -/
def clean_dates (value : Option String) : Option String :=
  match value with
  | none => none
  | some s =>
    let v := pyStripL s.data
    match strptimeFmt1 v with
    | some dt => some (String.mk (formatOutL dt))
    | none =>
      match strptimeFmt2 v with
      | some dt => some (String.mk (formatOutL dt))
      | none => none

/-- Strict reading of the canonical output format `"DD/MM/YYYY HH:MM:SS"`
with zero seconds, used to state that `clean_dates` preserves the parsed
instant. -/
def parseOutputL (cs : List Char) : Option PyDateTime :=
  match cs with
  | [d1, d2, s1, m1, m2, s2, y1, y2, y3, y4, s3, h1, h2, s4, n1, n2, s5, z1, z2] =>
    if s1 = '/' ∧ s2 = '/' ∧ s3 = ' ' ∧ s4 = ':' ∧ s5 = ':' ∧ z1 = '0' ∧ z2 = '0' ∧
        d1.isDigit ∧ d2.isDigit ∧ m1.isDigit ∧ m2.isDigit ∧
        y1.isDigit ∧ y2.isDigit ∧ y3.isDigit ∧ y4.isDigit ∧
        h1.isDigit ∧ h2.isDigit ∧ n1.isDigit ∧ n2.isDigit then
      some ⟨((decDigitVal y1 * 10 + decDigitVal y2) * 10 + decDigitVal y3) * 10 + decDigitVal y4,
            decDigitVal m1 * 10 + decDigitVal m2,
            decDigitVal d1 * 10 + decDigitVal d2,
            decDigitVal h1 * 10 + decDigitVal h2,
            decDigitVal n1 * 10 + decDigitVal n2⟩
    else none
  | _ => none

/-! ### Tables

DataFrames are lists of rows.  User records carry the columns named by the
spec data model; a transaction carries `tx_id`/`ID`, `user_id`, `timestamp`
and the numeric `amount` field that the pipeline carries through unchanged.
The `amount` is modelled as a rational: the JSON literal `9.999` denotes the
double that `repr` prints back as `9.999`, so at the granularity of this model
reading and default-printing the cell are the identity on the decimal literal.
-/

structure UserRaw where
  user_id : String
  email : String
  national_id : String
  account_created : Option String
  location : List (String × String)
  deriving DecidableEq

structure FlatUser where
  user_id : String
  email : String
  national_id : String
  account_created : Option String
  extras : List (String × Option String)
  deriving DecidableEq

structure TxRaw where
  tx_id : String
  user_id : String
  timestamp : Option String
  amount : Rat
  deriving DecidableEq

structure TxClean where
  ID : String
  user_id : String
  timestamp : Option String
  amount : Rat
  deriving DecidableEq

/-- Keys of the location sub-records in order of first appearance, the column
order produced by `pd.json_normalize`. -/
def locationKeys (users : List UserRaw) : List String :=
  users.foldl (fun acc u => acc ++ (u.location.map Prod.fst).filter (fun k => !acc.contains k)) []

/-- `flatten_location` (main.py lines 45-49): drop the `location` column and
append one column per sub-field key; a row missing a key gets a null cell. -/
def flatten_location (users : List UserRaw) : List FlatUser :=
  let keys := locationKeys users
  users.map (fun u =>
    ⟨u.user_id, u.email, u.national_id, u.account_created,
      keys.map (fun k => (k, u.location.lookup k))⟩)

/-- `DataFrame.drop_duplicates()`: keep the first occurrence of each row. -/
def dropDupAux {α : Type} [DecidableEq α] (seen : List α) : List α → List α
  | [] => []
  | x :: xs => if x ∈ seen then dropDupAux seen xs else x :: dropDupAux (x :: seen) xs

/-- `DataFrame.drop_duplicates()` on a list of rows. -/
def drop_duplicates {α : Type} [DecidableEq α] (l : List α) : List α :=
  dropDupAux [] l

/-- `Series.apply` over a column where the per-value function can raise
(`none` aborts the whole frame, like an uncaught Python exception). -/
def optionMapList {α β : Type} (f : α → Option β) : List α → Option (List β)
  | [] => some []
  | x :: xs =>
    match f x, optionMapList f xs with
    | some y, some ys => some (y :: ys)
    | _, _ => none

/-- The four per-column transforms of `clean_users` applied to one
already-flattened, already-deduplicated row. -/
def mask_user (r : FlatUser) : Option FlatUser :=
  match hide_email r.email with
  | none => none
  | some e =>
    some ⟨correct_to_uppercase r.user_id, e, hide_national_id r.national_id,
      clean_dates r.account_created, r.extras⟩

/-- `clean_users` (main.py lines 51-59): flatten the location, drop fully
duplicate rows, then normalize dates, upper-case `user_id`, mask `email` and
mask `national_id` column by column. -/
def clean_users (users : List UserRaw) : Option (List FlatUser) :=
  optionMapList mask_user (drop_duplicates (flatten_location users))

/-- `clean_transactions` (main.py lines 61-69): rename `tx_id` to `ID`,
normalize `timestamp`, upper-case `user_id`, then keep only rows whose
`user_id` lies in the `user_id` set of the cleaned user table.  The
`pd.set_option` call on line 62 only stores a console display format and is
modelled separately as `display_float_format`. -/
def clean_transactions (txs : List TxRaw) (users : List FlatUser) : List TxClean :=
  let renamed := txs.map (fun t => (⟨t.tx_id, t.user_id, t.timestamp, t.amount⟩ : TxClean))
  let dated := renamed.map (fun t => { t with timestamp := clean_dates t.timestamp })
  let upped := dated.map (fun t => { t with user_id := correct_to_uppercase t.user_id })
  let userIds := users.map FlatUser.user_id
  upped.filter (fun t => decide (t.user_id ∈ userIds))

/-- `users.merge(transactions, on="user_id", how="inner")` (main.py line 80):
one output row per pair of a user row and a transaction row sharing the same
`user_id`, ordered by the left (user) frame. -/
def mergeUsersTxs (users : List FlatUser) (txs : List TxClean) :
    List (FlatUser × TxClean) :=
  users.flatMap (fun u =>
    (txs.filter (fun t => decide (t.user_id = u.user_id))).map (fun t => (u, t)))

/-- `clean_data` (main.py lines 71-83) minus the file I/O adapters: clean the
users, clean the transactions against them, and inner-join the two tables. -/
def clean_data (users : List UserRaw) (txs : List TxRaw) :
    Option (List (FlatUser × TxClean)) :=
  (clean_users users).map (fun cu => mergeUsersTxs cu (clean_transactions txs cu))

/-! ### CSV rendering of the amount column -/

/-- A natural number zero-padded on the left to `k` digits. -/
def padZeros (k : Nat) (n : Nat) : String :=
  let s := toString n
  String.mk (List.replicate (k - s.length) '0') ++ s

/-- Smallest number of decimal places that writes the reduced rational
`q.num / q.den` exactly, i.e. the least `k` with `q.den ∣ 10 ^ k`. -/
def decimalPlaces (q : Rat) : Option Nat :=
  (List.range 40).find? (fun k => 10 ^ k % q.den == 0)

/-- The default float rendering used by `DataFrame.to_csv` when no
`float_format` argument is given: `repr` of the float, i.e. the shortest
decimal form (with `.0` appended to an integral value). -/
def default_float_cell (q : Rat) : String :=
  let sign := if q.num < 0 then "-" else ""
  match decimalPlaces q with
  | none => toString q.num ++ "/" ++ toString q.den
  | some 0 => sign ++ toString q.num.natAbs ++ ".0"
  | some k =>
    let a := q.num.natAbs * (10 ^ k / q.den)
    sign ++ toString (a / 10 ^ k) ++ "." ++ padZeros k (a % 10 ^ k)

/-- Round `num / den` (with `den > 0`) to the nearest integer, ties to even —
the rounding used by Python format specifications such as two-decimal
fixed-point. -/
def roundHalfEven (num den : Int) : Int :=
  let f := num.ediv den
  let r := num.emod den
  if 2 * r < den then f
  else if den < 2 * r then f + 1
  else if f.emod 2 = 0 then f else f + 1

/-- Python two-decimal fixed-point formatting of a number. -/
def format_two_decimals (q : Rat) : String :=
  let n := roundHalfEven (q.num * 100) (q.den : Int)
  (if n < 0 then "-" else "") ++ toString (n.natAbs / 100) ++ "." ++ padZeros 2 (n.natAbs % 100)

/-- The value stored by `pd.set_option("display.float_format", ...)` on
main.py line 62.  pandas consults it when rendering a frame for display;
`DataFrame.to_csv` does not read it. -/
def display_float_format : Rat → String := format_two_decimals

/-- The `amount` column of `output.csv` as written by main.py line 81:
`to_csv` is called without a `float_format` argument, so every amount cell is
the default float rendering of the joined row's amount. -/
def output_csv_amounts (users : List UserRaw) (txs : List TxRaw) :
    Option (List String) :=
  (clean_data users txs).map (fun rows => rows.map (fun r => default_float_cell r.2.amount))

/-! ### Concrete records of the end-to-end scenarios -/

/-- The user record of end-to-end scenario 1 of the spec. -/
def scenarioUser : UserRaw :=
  ⟨"u1", "a@b.com", "12345", some "01-02-2023-10-30", [("city", "X")]⟩

/-- The row that `clean_users` actually produces for `scenarioUser`. -/
def scenarioUserCleaned : FlatUser :=
  ⟨"U1", "a@b.com", "123XX", some "01/02/2023 10:30:00", [("city", some "X")]⟩

/-- The transaction record of end-to-end scenario 2 of the spec. -/
def scenarioTx : TxRaw := ⟨"t1", "u1", some "2023/02/01 10:30", mkRat 9999 1000⟩

/-- The transaction row that `clean_transactions` produces for `scenarioTx`. -/
def scenarioTxCleaned : TxClean := ⟨"t1", "U1", some "01/02/2023 10:30:00", mkRat 9999 1000⟩

/-- A user record differing from `scenarioUser` only in the raw
`national_id`; both records mask to `scenarioUserCleaned`. -/
def scenarioUserB : UserRaw :=
  ⟨"u1", "a@b.com", "12399", some "01-02-2023-10-30", [("city", "X")]⟩

/-! ### Helper lemmas -/

theorem findAt_eq_none {c : Char} {l : List Char} (h : c ∉ l) : findAt c l = none := by
  induction l with
  | nil => rfl
  | cons x xs ih =>
    have hx : ¬x = c := fun hxc => h (hxc ▸ List.mem_cons_self x xs)
    have hxs : c ∉ xs := fun hm => h (List.mem_cons_of_mem x hm)
    simp [findAt, hx, ih hxs]

theorem findAt_append {c : Char} {l : List Char} (h : c ∉ l) (r : List Char) :
    findAt c (l ++ c :: r) = some l.length := by
  induction l with
  | nil => simp [findAt]
  | cons x xs ih =>
    have hx : ¬x = c := fun hxc => h (hxc ▸ List.mem_cons_self x xs)
    have hxs : c ∉ xs := fun hm => h (List.mem_cons_of_mem x hm)
    simp [findAt, hx, ih hxs]

theorem drop_length_cons_eq_getLastD (cs : List Char) :
    ∀ c0 : Char, (c0 :: cs).drop cs.length = [(c0 :: cs).getLastD c0] := by
  induction cs with
  | nil => intro c0; rfl
  | cons y tl ih =>
    intro c0
    have h1 : (c0 :: y :: tl).drop (y :: tl).length = (y :: tl).drop tl.length := rfl
    rw [h1, ih y, List.getLastD_cons, List.getLastD_cons, List.getLastD_cons]


/-! ### Claims about the email masker -/

/-- Claim C6: for every email with exactly one at-sign at a position of at
least 1, `hide_email` keeps the first character, replaces the characters
strictly between the first character and the at-sign by a run of asterisks of
that same length, and keeps the suffix from the at-sign unchanged; in
particular the output has the length of the input. -/
theorem hide_email_valid_shape (c0 : Char) (pre post : List Char)
    (h0 : c0 ≠ '@') (h1 : '@' ∉ pre) (_h2 : '@' ∉ post) :
    hideEmailL (c0 :: (pre ++ '@' :: post))
      = some (c0 :: (List.replicate pre.length '*' ++ '@' :: post)) ∧
    (c0 :: (List.replicate pre.length '*' ++ '@' :: post)).length
      = (c0 :: (pre ++ '@' :: post)).length ∧
    (List.replicate pre.length '*' ++ '@' :: post).take pre.length
      = List.replicate pre.length '*' ∧
    (c0 :: (List.replicate pre.length '*' ++ '@' :: post)).drop (1 + pre.length)
      = '@' :: post ∧
    (c0 :: (pre ++ '@' :: post)).drop (1 + pre.length) = '@' :: post := by
  have hfind : findAt '@' (c0 :: (pre ++ '@' :: post)) = some (pre.length + 1) := by
    have hc : '@' ∉ c0 :: pre := by
      intro hm
      rcases List.mem_cons.mp hm with h | h
      · exact h0 h.symm
      · exact h1 h
    have := findAt_append (l := c0 :: pre) (c := '@') hc post
    simpa using this
  have hpf : pyFindChar (c0 :: (pre ++ '@' :: post)) '@' = ((pre.length : Int) + 1) := by
    simp [pyFindChar, hfind]
  refine ⟨?_, ?_, ?_, ?_, ?_⟩
  · simp only [hideEmailL]
    rw [hpf]
    have hrep : (((pre.length : Int) + 1) - 1).toNat = pre.length := by omega
    have hslice : pySliceFrom (c0 :: (pre ++ '@' :: post)) ((pre.length : Int) + 1)
        = '@' :: post := by
      rw [pySliceFrom, if_pos (by omega)]
      have hn : (((pre.length : Int) + 1)).toNat = pre.length + 1 := by omega
      rw [hn]
      show (pre ++ '@' :: post).drop pre.length = '@' :: post
      exact List.drop_left pre ('@' :: post)
    rw [hrep, hslice]
    simp
  · simp [List.length_append, List.length_replicate]
  · rw [List.take_left' (List.length_replicate pre.length '*')]
  · have : 1 + pre.length = pre.length + 1 := by omega
    rw [this, List.drop_succ_cons, List.drop_left' (List.length_replicate pre.length '*')]
  · have : 1 + pre.length = pre.length + 1 := by omega
    rw [this, List.drop_succ_cons, List.drop_left]

/-- Witness for C6 at the concrete email `abc@x`. -/
theorem hide_email_valid_shape_witness :
    hideEmailL ['a', 'b', 'c', '@', 'x']
      = some ('a' :: (List.replicate 2 '*' ++ '@' :: ['x'])) :=
  (hide_email_valid_shape 'a' ['b', 'c'] ['x'] (by decide) (by decide) (by decide)).1

/-- Claim C9: on a non-empty string without an at-sign, `find` returns `-1`,
the asterisk run is empty, and the final slice `email[-1:]` is the last
character, so `hide_email` returns first character followed by last character
(a one-character input is doubled); the output always has length 2. -/
theorem hide_email_no_at (c0 : Char) (cs : List Char) (h : '@' ∉ c0 :: cs) :
    hideEmailL (c0 :: cs) = some [c0, (c0 :: cs).getLastD c0] ∧
    [c0, (c0 :: cs).getLastD c0].length = 2 ∧
    (cs = [] → hideEmailL [c0] = some [c0, c0]) ∧
    ((c0 :: cs).length ≠ 2 →
      ∀ out, hideEmailL (c0 :: cs) = some out → out.length ≠ (c0 :: cs).length) := by
  have hpf : pyFindChar (c0 :: cs) '@' = -1 := by
    simp [pyFindChar, findAt_eq_none h]
  have hmain : hideEmailL (c0 :: cs) = some [c0, (c0 :: cs).getLastD c0] := by
    rw [hideEmailL, hpf]
    have hrep : ((-1 : Int) - 1).toNat = 0 := by omega
    have hslice : pySliceFrom (c0 :: cs) (-1) = [(c0 :: cs).getLastD c0] := by
      rw [pySliceFrom, if_neg (by omega)]
      have hn : (((c0 :: cs).length : Int) + (-1)).toNat = cs.length := by
        simp [List.length_cons]
      rw [hn]
      exact drop_length_cons_eq_getLastD cs c0
    rw [hrep, hslice]
    simp
  refine ⟨hmain, rfl, ?_, ?_⟩
  · intro hnil
    subst hnil
    simpa using hmain
  · intro hlen out hout
    rw [hmain] at hout
    have ho : [c0, (c0 :: cs).getLastD c0] = out := Option.some.inj hout
    rw [← ho]
    exact fun hcontra => hlen hcontra.symm

/-- Witness for C9 at the concrete inputs `abc` and `x`. -/
theorem hide_email_no_at_witness :
    hideEmailL ['a', 'b', 'c'] = some ['a', 'c'] ∧ hideEmailL ['x'] = some ['x', 'x'] := by
  constructor
  · exact (hide_email_no_at 'a' ['b', 'c'] (by decide)).1
  · exact (hide_email_no_at 'x' [] (by decide)).2.2.1 rfl


/-! ### Claims about the national-id masker -/

/-- Claim C7: `hide_national_id` preserves length, keeps the first
`min 3 len` characters verbatim, fills everything after position 3 with the
letter X, and returns inputs shorter than 3 characters unchanged. -/
theorem hide_national_id_shape (s : String) :
    (hide_national_id s).length = s.length ∧
    (hide_national_id s).data.take 3 = s.data.take 3 ∧
    (∀ c ∈ (hide_national_id s).data.drop 3, c = 'X') ∧
    (s.length < 3 → hide_national_id s = s) := by
  obtain ⟨l⟩ := s
  have hdata : (hide_national_id (String.mk l)).data
      = l.take 3 ++ List.replicate (l.drop 3).length 'X' := rfl
  refine ⟨?_, ?_, ?_, ?_⟩
  · show (l.take 3 ++ List.replicate (l.drop 3).length 'X').length = l.length
    simp [List.length_append, List.length_take, List.length_replicate, List.length_drop]
    omega
  · rw [hdata]
    show (l.take 3 ++ List.replicate (l.drop 3).length 'X').take 3 = l.take 3
    rcases Nat.lt_or_ge l.length 3 with hlt | hge
    · rw [List.drop_eq_nil_of_le (by omega)]
      simp [List.take_take]
    · rw [List.take_append_of_le_length (by simp [List.length_take]; omega)]
      simp [List.take_take]
  · intro c hc
    rw [hdata] at hc
    rcases Nat.lt_or_ge l.length 3 with hlt | hge
    · rw [List.drop_eq_nil_of_le
          (by simp [List.length_append, List.length_take, List.length_replicate,
                List.length_drop]; omega)] at hc
      simp at hc
    · rw [List.drop_left' (by simp [List.length_take]; omega)] at hc
      exact List.eq_of_mem_replicate hc
  · intro hlt
    have hl : l.length < 3 := hlt
    have hbody : l.take 3 ++ List.replicate (l.drop 3).length 'X' = l := by
      rw [List.drop_eq_nil_of_le (by omega)]
      simp [List.take_of_length_le (Nat.le_of_lt hl)]
    exact congrArg String.mk hbody

/-- Witness for C7 at the concrete inputs `12` (returned unchanged) and
`12345` (masked to `123XX`, same length). -/
theorem hide_national_id_shape_witness :
    hide_national_id "12" = "12" ∧ (hide_national_id "12345").length = ("12345" : String).length := by
  constructor
  · exact (hide_national_id_shape "12").2.2.2 (by decide)
  · exact (hide_national_id_shape "12345").1

/-- Claim C10: the output of `hide_national_id` depends only on the input's
length and first three characters, so the masked tail is irrecoverable from
the output. -/
theorem hide_national_id_depends_only_on_prefix_and_length (a b : String)
    (hlen : a.length = b.length) (hpre : a.data.take 3 = b.data.take 3) :
    hide_national_id a = hide_national_id b := by
  unfold hide_national_id
  have hdlen : (a.data.drop 3).length = (b.data.drop 3).length := by
    have ha : a.length = a.data.length := rfl
    have hb : b.length = b.data.length := rfl
    simp [List.length_drop]
    omega
  rw [hpre, hdlen]

/-- Witness for C10: two ids of equal length sharing their first three
characters mask identically. -/
theorem hide_national_id_depends_witness :
    hide_national_id "12345" = hide_national_id "12399" :=
  hide_national_id_depends_only_on_prefix_and_length "12345" "12399" (by decide) (by decide)

/-! ### Claims about the transaction cleaner and the join -/

/-- Claim C4: every transaction row retained by `clean_transactions` carries a
`user_id` that is a member of the `user_id` column of the cleaned user table
passed to it. -/
theorem clean_transactions_referential (txs : List TxRaw) (users : List FlatUser)
    (t : TxClean) (h : t ∈ clean_transactions txs users) :
    t.user_id ∈ users.map FlatUser.user_id := by
  simp only [clean_transactions] at h
  have hp := (List.mem_filter.mp h).2
  exact of_decide_eq_true hp

/-- Witness for C4 on the scenario records. -/
theorem clean_transactions_referential_witness :
    scenarioTxCleaned.user_id ∈ [scenarioUserCleaned].map FlatUser.user_id :=
  clean_transactions_referential [scenarioTx] [scenarioUserCleaned] scenarioTxCleaned (by decide)

theorem length_filter_or_disjoint {α : Type} (p q : α → Bool) (l : List α)
    (h : ∀ t, p t = true → q t = false) :
    (l.filter (fun t => p t || q t)).length = (l.filter p).length + (l.filter q).length := by
  induction l with
  | nil => rfl
  | cons x xs ih =>
    cases hp : p x with
    | false =>
      cases hq : q x with
      | false => simpa [List.filter_cons, hp, hq] using ih
      | true =>
        simp [List.filter_cons, hp, hq, ih]
        omega
    | true =>
      have hqf := h x hp
      simp [List.filter_cons, hp, hqf, ih]
      omega

/-- Claim C5: when the `user_id` column of the cleaned user table has no
duplicates, the inner join on `user_id` has exactly as many rows as the
cleaned transaction rows whose `user_id` occurs among the users. -/
theorem merge_count_eq_filter_count (users : List FlatUser) (txs : List TxClean)
    (h : (users.map FlatUser.user_id).Nodup) :
    (mergeUsersTxs users txs).length
      = (txs.filter (fun t => decide (t.user_id ∈ users.map FlatUser.user_id))).length := by
  induction users with
  | nil => simp [mergeUsersTxs]
  | cons u us ih =>
    rw [List.map_cons, List.nodup_cons] at h
    obtain ⟨hnot, hnd⟩ := h
    have hLHS : mergeUsersTxs (u :: us) txs
        = (txs.filter (fun t => decide (t.user_id = u.user_id))).map (fun t => (u, t))
          ++ mergeUsersTxs us txs := by
      simp [mergeUsersTxs]
    rw [hLHS, List.length_append, List.length_map]
    have hfc : txs.filter (fun t => decide (t.user_id ∈ (u :: us).map FlatUser.user_id))
        = txs.filter (fun t => decide (t.user_id = u.user_id)
            || decide (t.user_id ∈ us.map FlatUser.user_id)) := by
      apply List.filter_congr
      intro t _
      simp [List.mem_cons]
    have hdisj : ∀ t : TxClean, decide (t.user_id = u.user_id) = true →
        decide (t.user_id ∈ us.map FlatUser.user_id) = false := by
      intro t hpt
      have ht : t.user_id = u.user_id := of_decide_eq_true hpt
      apply decide_eq_false
      rw [ht]
      exact hnot
    rw [hfc, length_filter_or_disjoint _ _ _ hdisj, ih hnd]

/-- Witness for C5 on the scenario records. -/
theorem merge_count_eq_filter_count_witness :
    (mergeUsersTxs [scenarioUserCleaned] [scenarioTxCleaned]).length
      = ([scenarioTxCleaned].filter
          (fun t => decide (t.user_id ∈ [scenarioUserCleaned].map FlatUser.user_id))).length :=
  merge_count_eq_filter_count [scenarioUserCleaned] [scenarioTxCleaned] (by decide)

/-! ### Claims about the user cleaner -/

theorem optionMapList_length {α β : Type} (f : α → Option β) :
    ∀ (l : List α) (out : List β), optionMapList f l = some out → out.length = l.length := by
  intro l
  induction l with
  | nil =>
    intro out h
    simp only [optionMapList] at h
    injection h with h
    simp [← h]
  | cons x xs ih =>
    intro out h
    simp only [optionMapList] at h
    cases hfx : f x with
    | none => rw [hfx] at h; simp at h
    | some y =>
      rw [hfx] at h
      cases hrec : optionMapList f xs with
      | none => rw [hrec] at h; simp at h
      | some ys =>
        rw [hrec] at h
        simp only [Option.some.injEq] at h
        rw [← h, List.length_cons, ih ys hrec]
        rfl

/-- Claim C8: `clean_users` collapses rows that are identical in every
column, and de-duplicates before masking: the row count of a successful run
equals the row count right after `drop_duplicates` on the flattened table, so
masking never merges rows; concretely, two copies of the scenario user
collapse to one row, while the scenario user and a variant differing only in
the raw `national_id` both survive even though they mask to the same row. -/
theorem clean_users_dedup_before_masking :
    (∀ (us : List UserRaw) (out : List FlatUser), clean_users us = some out →
      out.length = (drop_duplicates (flatten_location us)).length) ∧
    clean_users [scenarioUser, scenarioUser] = some [scenarioUserCleaned] ∧
    clean_users [scenarioUser, scenarioUserB]
      = some [scenarioUserCleaned, scenarioUserCleaned] ∧
    scenarioUser.national_id ≠ scenarioUserB.national_id := by
  refine ⟨?_, by decide, by decide, by decide⟩
  intro us out h
  exact optionMapList_length mask_user (drop_duplicates (flatten_location us)) out h

/-- Witness for C8: the general length clause applied to the duplicated
scenario user. -/
theorem clean_users_dedup_before_masking_witness :
    ([scenarioUserCleaned] : List FlatUser).length
      = (drop_duplicates (flatten_location [scenarioUser, scenarioUser])).length :=
  clean_users_dedup_before_masking.1 [scenarioUser, scenarioUser] [scenarioUserCleaned] (by decide)

/-- Counterexample to claim C2 as stated: `clean_users` on the scenario user
produces exactly one row, whose email is `a@b.com` (the at-sign is at
position 1, so the asterisk run is empty) and whose national id is `123XX`
(first three characters kept), not the claimed `a****@b.com` and `12XXX`. -/
theorem scenario1_claim_counterexample :
    clean_users [scenarioUser] = some [scenarioUserCleaned] ∧
    scenarioUserCleaned.email = "a@b.com" ∧
    scenarioUserCleaned.national_id = "123XX" ∧
    scenarioUserCleaned.email ≠ "a****@b.com" ∧
    scenarioUserCleaned.national_id ≠ "12XXX" := by decide

/-- Claim C2 amended: for the single scenario user record, `clean_users`
produces one row with `user_id` `U1`, email `a@b.com`, national id `123XX`,
`account_created` `01/02/2023 10:30:00`, and the flattened `city` column
equal to `X`. -/
theorem scenario1_amended :
    clean_users [scenarioUser] = some [scenarioUserCleaned] ∧
    scenarioUserCleaned.user_id = "U1" ∧
    scenarioUserCleaned.email = "a@b.com" ∧
    scenarioUserCleaned.national_id = "123XX" ∧
    scenarioUserCleaned.account_created = some "01/02/2023 10:30:00" ∧
    scenarioUserCleaned.extras = [("city", some "X")] := by decide

/-! ### Claim about the two-decimal rendering of `output.csv` -/

/-- Claim C1 fails on the code: `clean_transactions` only sets the pandas
`display.float_format` option, which `to_csv` does not read, so the scenario
amount `9.999` is written to `output.csv` as `9.999`; the format that the
code installs for console display would have produced the claimed `10.00`. -/
theorem output_csv_amount_not_two_decimals :
    output_csv_amounts [scenarioUser] [scenarioTx] = some ["9.999"] ∧
    display_float_format (mkRat 9999 1000) = "10.00" ∧
    ("9.999" : String) ≠ "10.00" := by decide

/-! ### Claim about the date normalizer -/

theorem isDigit_decDigitChar {k : Nat} (h : k ≤ 9) : (decDigitChar k).isDigit = true := by
  interval_cases k <;> decide

theorem decDigitVal_decDigitChar {k : Nat} (h : k ≤ 9) : decDigitVal (decDigitChar k) = k := by
  interval_cases k <;> decide

theorem daysInMonth_le_31 (y m : Nat) : daysInMonth y m ≤ 31 := by
  unfold daysInMonth
  split <;> first
  | omega
  | (split <;> omega)

theorem strptimeFmt1_valid {cs : List Char} {dt : PyDateTime}
    (h : strptimeFmt1 cs = some dt) : validDate dt = true := by
  unfold strptimeFmt1 at h
  rcases hc : fmt1Cands cs with _ | ⟨⟨dt0, rest⟩, tail⟩
  · rw [hc] at h
    exact absurd h (by simp)
  · rw [hc] at h
    dsimp only at h
    by_cases hcond : (rest.isEmpty && validDate dt0) = true
    · rw [if_pos hcond] at h
      obtain rfl : dt0 = dt := by injection h
      have hcond2 := hcond
      simp only [Bool.and_eq_true] at hcond2
      exact hcond2.2
    · rw [if_neg hcond] at h
      exact absurd h (by simp)

theorem strptimeFmt2_valid {cs : List Char} {dt : PyDateTime}
    (h : strptimeFmt2 cs = some dt) : validDate dt = true := by
  unfold strptimeFmt2 at h
  rcases hc : fmt2Cands cs with _ | ⟨⟨dt0, rest⟩, tail⟩
  · rw [hc] at h
    exact absurd h (by simp)
  · rw [hc] at h
    dsimp only at h
    by_cases hcond : (rest.isEmpty && validDate dt0) = true
    · rw [if_pos hcond] at h
      obtain rfl : dt0 = dt := by injection h
      have hcond2 := hcond
      simp only [Bool.and_eq_true] at hcond2
      exact hcond2.2
    · rw [if_neg hcond] at h
      exact absurd h (by simp)

/-- A constructible datetime reads back from its canonical rendering with the
very same fields: rendering loses no part of the instant. -/
theorem parseOutputL_formatOutL {dt : PyDateTime} (h : validDate dt = true) :
    parseOutputL (formatOutL dt) = some dt := by
  obtain ⟨y, m, d, hh, mi⟩ := dt
  have hb : (1 ≤ y ∧ y ≤ 9999) ∧ (1 ≤ m ∧ m ≤ 12) ∧
      (1 ≤ d ∧ d ≤ daysInMonth y m) ∧ hh ≤ 23 ∧ mi ≤ 59 := by
    simpa [validDate, Bool.and_eq_true, decide_eq_true_eq, and_assoc] using h
  obtain ⟨⟨hy1, hy2⟩, ⟨hm1, hm2⟩, ⟨hd1, hd2⟩, hh2, hmi2⟩ := hb
  have hd31 : d ≤ 31 := le_trans hd2 (daysInMonth_le_31 y m)
  simp only [formatOutL, parseOutputL]
  rw [if_pos]
  · simp only [Option.some.injEq, PyDateTime.mk.injEq]
    refine ⟨?_, ?_, ?_, ?_, ?_⟩
    · rw [decDigitVal_decDigitChar (by omega), decDigitVal_decDigitChar (by omega),
        decDigitVal_decDigitChar (by omega), decDigitVal_decDigitChar (by omega)]
      omega
    · rw [decDigitVal_decDigitChar (by omega), decDigitVal_decDigitChar (by omega)]
      omega
    · rw [decDigitVal_decDigitChar (by omega), decDigitVal_decDigitChar (by omega)]
      omega
    · rw [decDigitVal_decDigitChar (by omega), decDigitVal_decDigitChar (by omega)]
      omega
    · rw [decDigitVal_decDigitChar (by omega), decDigitVal_decDigitChar (by omega)]
      omega
  · refine ⟨?_, ?_, ?_, ?_, ?_, ?_, ?_, ?_, ?_, ?_, ?_, ?_, ?_, ?_, ?_, ?_, ?_, ?_, ?_⟩ <;>
      first
      | trivial
      | exact isDigit_decDigitChar (by omega)

/-- Claim C3: `clean_dates` propagates null; on any other input it strips the
text, tries the format `"%d-%m-%Y-%H-%M"` and then `"%Y/%m/%d %H:%M"`,
returns the first successful parse rendered as `"DD/MM/YYYY HH:MM:SS"` — the
same instant, as the rendering reads back to the identical parsed fields —
and returns null when neither format matches. -/
theorem clean_dates_spec :
    clean_dates none = none ∧
    (∀ (s : String) (dt : PyDateTime), strptimeFmt1 (pyStripL s.data) = some dt →
      clean_dates (some s) = some (String.mk (formatOutL dt)) ∧
      parseOutputL (formatOutL dt) = some dt) ∧
    (∀ (s : String) (dt : PyDateTime), strptimeFmt1 (pyStripL s.data) = none →
      strptimeFmt2 (pyStripL s.data) = some dt →
      clean_dates (some s) = some (String.mk (formatOutL dt)) ∧
      parseOutputL (formatOutL dt) = some dt) ∧
    (∀ s : String, strptimeFmt1 (pyStripL s.data) = none →
      strptimeFmt2 (pyStripL s.data) = none → clean_dates (some s) = none) := by
  refine ⟨rfl, ?_, ?_, ?_⟩
  · intro s dt h1
    refine ⟨?_, parseOutputL_formatOutL (strptimeFmt1_valid h1)⟩
    simp only [clean_dates, h1]
  · intro s dt h1 h2
    refine ⟨?_, parseOutputL_formatOutL (strptimeFmt2_valid h2)⟩
    simp only [clean_dates, h1, h2]
  · intro s h1 h2
    simp only [clean_dates, h1, h2]

/-- Witness for C3: a hit on the first format, a hit on the second format and
a miss on both (February the 31st fails construction). -/
theorem clean_dates_spec_witness :
    clean_dates (some " 01-02-2023-10-30 ") = some "01/02/2023 10:30:00" ∧
    clean_dates (some "2023/02/01 10:30") = some "01/02/2023 10:30:00" ∧
    clean_dates (some "31-02-2023-10-30") = none := by
  refine ⟨?_, ?_, ?_⟩
  · exact (clean_dates_spec.2.1 " 01-02-2023-10-30 " ⟨2023, 2, 1, 10, 30⟩ (by decide)).1
  · exact (clean_dates_spec.2.2.1 "2023/02/01 10:30" ⟨2023, 2, 1, 10, 30⟩ (by decide) (by decide)).1
  · exact clean_dates_spec.2.2.2 "31-02-2023-10-30" (by decide) (by decide)
